import Mathlib

/-!
Shallow embedding of av1/encoder/speed_features.c (speed-profile resolution
engine).  The four tiered resolvers, the mesh/exhaustive-search table
selector, the cross-field consistency corrector and the pass/mode finalizer
are translated directly from the C source; the struct SPEED_FEATURES is
modelled as a flat record and the C mutation chains as sequential record
updates (last writer wins).  Conditional-compilation blocks are modelled for
the baseline build in which CONFIG_TX64X64, CONFIG_EXT_INTER, CONFIG_EXT_TX,
CONFIG_EXT_TILE, CONFIG_EXT_PARTITION and CONFIG_AOM_QM are all unset, so
MAX_SB_SIZE_LOG2 = 6 and TX_SIZES = 4.
-/

/-- Encoding mode (oxcf->mode). -/
inductive ENC_MODE
  | BEST
  | GOOD
  | REALTIME
deriving DecidableEq

/-- Motion-vector search methods (subset used by this file). -/
inductive SEARCH_METHODS
  | DIAMOND
  | NSTEP
  | HEX
  | BIGDIA
  | SQUARE
  | FAST_HEX
  | FAST_DIAMOND
deriving DecidableEq

/-- Sub-pixel refinement search methods. -/
inductive SUBPEL_SEARCH_METHODS
  | SUBPEL_TREE
  | SUBPEL_TREE_PRUNED
  | SUBPEL_TREE_PRUNED_MORE
  | SUBPEL_TREE_PRUNED_EVENMORE
deriving DecidableEq

/-- Recode loop policy. -/
inductive RECODE_LOOP_TYPE
  | DISALLOW_RECODE
  | ALLOW_RECODE_KFMAXBW
  | ALLOW_RECODE_KFARFGF
  | ALLOW_RECODE
deriving DecidableEq

/-- Transform-size search method. -/
inductive TX_SIZE_SEARCH_METHOD
  | USE_FULL_RD
  | USE_LARGESTALL
  | USE_TX_8X8
deriving DecidableEq

/-- Transform-type search pruning mode. -/
inductive TX_TYPE_PRUNE_MODE
  | NO_PRUNE
  | PRUNE_ONE
  | PRUNE_TWO
deriving DecidableEq

/-- Auto min/max partition-size relaxation mode. -/
inductive AUTO_MIN_MAX_MODE
  | NOT_IN_USE
  | RELAXED_NEIGHBORING_MIN_MAX
  | STRICT_NEIGHBORING_MIN_MAX
deriving DecidableEq

/-- Loop-filter pick strategy. -/
inductive LPF_PICK_METHOD
  | LPF_PICK_ALL
  | LPF_PICK_FROM_FULL_IMAGE
  | LPF_PICK_FROM_SUBIMAGE
  | LPF_PICK_FROM_Q
  | LPF_PICK_MINIMAL_LPF
deriving DecidableEq

/-- Partition search strategy. -/
inductive PARTITION_SEARCH_TYPE
  | SEARCH_PARTITION
  | FIXED_PARTITION
  | REFERENCE_PARTITION
  | VAR_BASED_PARTITION
deriving DecidableEq

/-- Coefficient probability update strategy. -/
inductive FAST_COEFF_UPDATE
  | TWO_LOOP
  | ONE_LOOP_REDUCED
deriving DecidableEq

/-- Frame type (cm->frame_type). -/
inductive FRAME_TYPE
  | KEY_FRAME
  | INTER_FRAME
deriving DecidableEq

/-- Two-pass content classification (cpi->twopass.fr_content_type). -/
inductive FC_CONTENT_TYPE
  | FC_NORMAL
  | FC_GRAPHICS_ANIMATION
deriving DecidableEq

/-- User content hint (oxcf->content). -/
inductive aom_tune_content
  | AOM_CONTENT_DEFAULT
  | AOM_CONTENT_SCREEN
deriving DecidableEq

/-- Which sub-pixel refinement function cpi->find_fractional_mv_step is bound
to by the finalizer. -/
inductive FRACTIONAL_MV_STEP_FN
  | av1_find_best_sub_pixel_tree
  | av1_find_best_sub_pixel_tree_pruned
  | av1_find_best_sub_pixel_tree_pruned_more
  | av1_find_best_sub_pixel_tree_pruned_evenmore
deriving DecidableEq

/-- INT_MAX from limits.h (32-bit int). -/
def INT_MAX : Nat := 2147483647

/-- Max mesh step count (speed_features.h). -/
def MAX_MESH_STEP : Nat := 4

/-- Max speed setting for the mesh motion method. -/
def MAX_MESH_SPEED : Nat := 5

/-- Modelled from the spec: MAX_REFS, the number of sub-8x8 reference
threshold slots, from av1/encoder/rd.h which is not under src/. -/
def MAX_REFS : Nat := 6

/-- Superblock size log2 for the baseline (no CONFIG_EXT_PARTITION) build. -/
def MAX_SB_SIZE_LOG2 : Nat := 6

/-- Modelled from the spec: the number of transform sizes (TX_4X4, TX_8X8,
TX_16X16, TX_32X32) in the baseline build; the enum lives in headers that
are not under src/. -/
def TX_SIZES : Nat := 4

/-- Index of TX_16X16 in the transform-size enum. -/
def TX_16X16 : Nat := 2

/-- Index of TX_32X32 in the transform-size enum. -/
def TX_32X32 : Nat := 3

/-- Modelled from the spec: BLOCK_SIZE enum indices for the baseline build
(BLOCK_4X4 = 0 .. BLOCK_64X64 = 12, BLOCK_SIZES = 13); the enum lives in
av1/common headers that are not under src/.  Only the identity of the
values matters to the resolution engine. -/
def BLOCK_4X4 : Nat := 0

/-- BLOCK_SIZE index of the 8x8 block. -/
def BLOCK_8X8 : Nat := 3

/-- BLOCK_SIZE index of the 16x16 block. -/
def BLOCK_16X16 : Nat := 6

/-- BLOCK_SIZE index of the 32x32 block. -/
def BLOCK_32X32 : Nat := 9

/-- BLOCK_SIZE index of the 32x64 block. -/
def BLOCK_32X64 : Nat := 10

/-- BLOCK_SIZE index of the 64x32 block. -/
def BLOCK_64X32 : Nat := 11

/-- BLOCK_SIZE index of the 64x64 block. -/
def BLOCK_64X64 : Nat := 12

/-- Number of block sizes in the baseline build. -/
def BLOCK_SIZES : Nat := 13

/-- Largest block size of the baseline build (BLOCK_64X64). -/
def BLOCK_LARGEST : Nat := 12

/-- Modelled from the spec: sub-8x8 reference-combination threshold indices
(av1/encoder/rd.h, not under src/): THR_LAST = 0, THR_GOLD = 1,
THR_ALTR = 2, THR_COMP_LA = 3, THR_COMP_GA = 4, THR_INTRA = 5. -/
def THR_LAST : Nat := 0

/-- Threshold index for the golden reference. -/
def THR_GOLD : Nat := 1

/-- Threshold index for the alt-ref reference. -/
def THR_ALTR : Nat := 2

/-- Threshold index for the compound last+alt combination. -/
def THR_COMP_LA : Nat := 3

/-- Threshold index for the compound golden+alt combination. -/
def THR_COMP_GA : Nat := 4

/-- Threshold index for intra. -/
def THR_INTRA : Nat := 5

/-- Modelled from the spec: the disable-split bitmask forbidding only the
compound-reference splits (speed_features.h, not under src/). -/
def DISABLE_COMPOUND_SPLIT : Nat := (1 <<< THR_COMP_GA) ||| (1 <<< THR_COMP_LA)

/-- Modelled from the spec: the disable-split bitmask forbidding every
inter split (speed_features.h, not under src/). -/
def DISABLE_ALL_INTER_SPLIT : Nat :=
  (1 <<< THR_COMP_GA) ||| (1 <<< THR_COMP_LA) ||| (1 <<< THR_ALTR) |||
    (1 <<< THR_GOLD) ||| (1 <<< THR_LAST)

/-- Modelled from the spec: the disable-split bitmask forbidding all splits
(speed_features.h, not under src/). -/
def DISABLE_ALL_SPLIT : Nat := (1 <<< THR_INTRA) ||| DISABLE_ALL_INTER_SPLIT

/-- Modelled from the spec: the disable-split bitmask allowing only last and
intra splits (speed_features.h, not under src/). -/
def LAST_AND_INTRA_SPLIT_ONLY : Nat :=
  (1 <<< THR_COMP_GA) ||| (1 <<< THR_COMP_LA) ||| (1 <<< THR_ALTR) |||
    (1 <<< THR_GOLD)

/-- Modelled from the spec: intra mode bitmask with only DC
(speed_features.h, not under src/; exact bit layout immaterial, only
identity of the constants matters). -/
def INTRA_DC : Nat := 1

/-- Intra mode bitmask with DC, horizontal and vertical modes. -/
def INTRA_DC_H_V : Nat := 1 ||| (1 <<< 1) ||| (1 <<< 2)

/-- Intra mode bitmask with DC, TM, horizontal and vertical modes. -/
def INTRA_DC_TM_H_V : Nat := INTRA_DC_H_V ||| (1 <<< 9)

/-- Intra mode bitmask with every intra mode enabled. -/
def INTRA_ALL : Nat := (1 <<< 10) - 1

/-- Modelled from the spec: inter mode bitmasks (speed_features.h, not
under src/; bit order NEARESTMV, NEARMV, ZEROMV, NEWMV). -/
def INTER_ALL : Nat := 15

/-- Inter mode bitmask with only NEARESTMV. -/
def INTER_NEAREST : Nat := 1

/-- Inter mode bitmask with NEARESTMV, NEARMV and NEWMV. -/
def INTER_NEAREST_NEAR_NEW : Nat := 1 ||| (1 <<< 1) ||| (1 <<< 3)

/-- Inter mode bitmask with NEARESTMV, NEWMV and ZEROMV. -/
def INTER_NEAREST_NEW_ZERO : Nat := 1 ||| (1 <<< 2) ||| (1 <<< 3)

/-- Modelled from the spec: mode-search skip flags (av1/encoder/rdopt.h,
not under src/; values immaterial, used as opaque bitmask constituents). -/
def FLAG_SKIP_INTRA_BESTINTER : Nat := 1 <<< 0

/-- Skip intra modes that deviate from the best inter direction. -/
def FLAG_SKIP_INTRA_DIRMISMATCH : Nat := 1 <<< 1

/-- Skip intra modes on low-variance blocks. -/
def FLAG_SKIP_INTRA_LOWVAR : Nat := 1 <<< 2

/-- Skip compound modes when the best so far is intra. -/
def FLAG_SKIP_COMP_BESTINTRA : Nat := 1 <<< 3

/-- Early-terminate mode search. -/
def FLAG_EARLY_TERMINATE : Nat := 1 <<< 5

/-- Modelled from the spec: motion threshold for loop-filter selection
(LOW_MOTION_THRESHOLD, speed_features.h, not under src/). -/
def LOW_MOTION_THRESHOLD : Nat := 7

/-- Modelled from the spec: the SWITCHABLE interpolation filter value
(av1/common headers, not under src/). -/
def SWITCHABLE : Nat := 4

/-- Modelled from the spec: number of modes considered in mode search
(MAX_MODES, av1/encoder/rdopt.h, not under src/; used only as the default
value of mode_skip_start). -/
def MAX_MODES : Nat := 30

/-- One {range, interval} step of a mesh motion-search pattern. -/
structure MESH_PATTERN where
  range : Nat
  interval : Nat
deriving DecidableEq

/-- Mesh search pattern for the best-quality mode. -/
def best_quality_mesh_pattern : List MESH_PATTERN :=
  [⟨64, 4⟩, ⟨28, 2⟩, ⟨15, 1⟩, ⟨7, 1⟩]

/-- Mesh search patterns for good-quality speeds 0..MAX_MESH_SPEED. -/
def good_quality_mesh_patterns : List (List MESH_PATTERN) :=
  [[⟨64, 8⟩, ⟨28, 4⟩, ⟨15, 1⟩, ⟨7, 1⟩],
   [⟨64, 8⟩, ⟨28, 4⟩, ⟨15, 1⟩, ⟨7, 1⟩],
   [⟨64, 8⟩, ⟨14, 2⟩, ⟨7, 1⟩, ⟨7, 1⟩],
   [⟨64, 16⟩, ⟨24, 8⟩, ⟨12, 4⟩, ⟨7, 1⟩],
   [⟨64, 16⟩, ⟨24, 8⟩, ⟨12, 4⟩, ⟨7, 1⟩],
   [⟨64, 16⟩, ⟨24, 8⟩, ⟨12, 4⟩, ⟨7, 1⟩]]

/-- Maximum-search-percentage caps for good-quality speeds 0..MAX_MESH_SPEED. -/
def good_quality_max_mesh_pct : List Nat := [50, 25, 15, 5, 1, 1]

/-- Motion-vector search sub-record (MV_SPEED_FEATURES). -/
structure MV_SPEED_FEATURES where
  search_method : SEARCH_METHODS
  reduce_first_step_size : Nat
  auto_mv_step_size : Nat
  subpel_search_method : SUBPEL_SEARCH_METHODS
  subpel_iters_per_step : Nat
  subpel_force_stop : Nat
  fullpel_search_step_param : Nat
deriving DecidableEq

/-- Transform-type search sub-record (TX_TYPE_SEARCH). -/
structure TX_TYPE_SEARCH where
  prune_mode : TX_TYPE_PRUNE_MODE
  fast_intra_tx_type_search : Nat
  fast_inter_tx_type_search : Nat
deriving DecidableEq

/-- The SPEED_FEATURES record (the SpeedProfile of the spec): every field
this file assigns, with C int flags as Nat, enum fields as the inductive
types above, and the fixed-size arrays as lists. -/
structure SPEED_FEATURES where
  frame_parameter_update : Nat
  mv : MV_SPEED_FEATURES
  recode_loop : RECODE_LOOP_TYPE
  optimize_coefficients : Nat
  coeff_prob_appx_step : Nat
  comp_inter_joint_search_thresh : Nat
  adaptive_rd_thresh : Nat
  tx_size_search_method : TX_SIZE_SEARCH_METHOD
  adaptive_motion_search : Nat
  adaptive_pred_interp_filter : Nat
  adaptive_mode_search : Nat
  cb_pred_filter_search : Nat
  cb_partition_search : Nat
  alt_ref_search_fp : Nat
  partition_search_type : PARTITION_SEARCH_TYPE
  tx_type_search : TX_TYPE_SEARCH
  less_rectangular_check : Nat
  use_square_partition_only : Nat
  auto_min_max_partition_size : AUTO_MIN_MAX_MODE
  rd_auto_partition_min_limit : Nat
  default_max_partition_size : Nat
  default_min_partition_size : Nat
  adjust_partitioning_from_last_frame : Nat
  last_partitioning_redo_frequency : Nat
  disable_split_mask : Nat
  mode_search_skip_flags : Nat
  force_frame_boost : Nat
  max_delta_qindex : Nat
  disable_filter_search_var_thresh : Nat
  adaptive_interp_filter_search : Nat
  allow_partition_search_skip : Nat
  use_upsampled_references : Nat
  intra_y_mode_mask : List Nat
  intra_uv_mode_mask : List Nat
  use_rd_breakout : Nat
  lpf_pick : LPF_PICK_METHOD
  use_fast_coef_updates : FAST_COEFF_UPDATE
  use_fast_coef_costing : Nat
  mode_skip_start : Nat
  schedule_mode_search : Nat
  inter_mode_mask : List Nat
  max_intra_bsize : Nat
  reuse_inter_pred_sby : Nat
  always_this_block_size : Nat
  search_type_check_frequency : Nat
  recode_tolerance : Nat
  default_interp_filter : Nat
  tx_size_search_breakout : Nat
  partition_search_breakout_dist_thr : Nat
  partition_search_breakout_rate_thr : Nat
  simple_model_rd_from_var : Nat
  use_transform_domain_distortion : Nat
  static_segmentation : Nat
  lf_motion_threshold : Nat
  intra_y_mode_bsize_mask : List Nat
  allow_exhaustive_searches : Nat
  exhaustive_searches_thresh : Nat
  max_exaustive_pct : Nat
  mesh_patterns : List MESH_PATTERN
deriving DecidableEq

/-- The read-only per-frame encoding context: the fields of cpi, cm and
oxcf that the resolution engine reads.  External predicates computed
elsewhere in the encoder (frame_is_kf_gf_arf, av1_internal_image_edge,
cm->intra_only) enter as boolean inputs. -/
structure EncCtx where
  speed : Nat
  mode : ENC_MODE
  pass : Nat
  width : Nat
  height : Nat
  show_frame : Bool
  base_qindex : Nat
  frame_type : FRAME_TYPE
  last_frame_type : FRAME_TYPE
  intra_only : Bool
  frames_since_key : Nat
  frame_is_kf_gf_arf : Bool
  fr_content_type : FC_CONTENT_TYPE
  internal_image_edge : Bool
  content : aom_tune_content
  lossless_requested : Bool
  frame_periodic_boost : Bool
deriving DecidableEq

/-- frame_is_intra_only(cm): key frame or intra-only frame. -/
def frame_is_intra_only (ctx : EncCtx) : Bool :=
  decide (ctx.frame_type = FRAME_TYPE.KEY_FRAME) || ctx.intra_only

/-- frame_is_boosted: intra-only frames, golden frames (except alt-ref
overlays) and alt-ref frames; the underlying frame_is_kf_gf_arf predicate
is an external input. -/
def frame_is_boosted (ctx : EncCtx) : Bool :=
  ctx.frame_is_kf_gf_arf

/-- set_partition_min_limit: minimum auto-partition size from the image
dimensions, three bands by pixel area. -/
def set_partition_min_limit (width height : Nat) : Nat :=
  let screen_area := width * height
  if screen_area < 1280 * 720 then BLOCK_4X4
  else if screen_area < 1920 * 1080 then BLOCK_8X8
  else BLOCK_16X16

/-- set_good_speed_feature_framesize_dependent: good-quality
geometry-dependent tiered resolver (speed_features.c lines 67-130). -/
def set_good_speed_feature_framesize_dependent (ctx : EncCtx)
    (sf0 : SPEED_FEATURES) (speed : Nat) : SPEED_FEATURES :=
  let sf := sf0
  let sf :=
    if 1 ≤ speed then
      if 720 ≤ min ctx.width ctx.height then
        { sf with
          disable_split_mask :=
            if ctx.show_frame then DISABLE_ALL_SPLIT else DISABLE_ALL_INTER_SPLIT,
          partition_search_breakout_dist_thr := 1 <<< 23 }
      else
        { sf with
          disable_split_mask := DISABLE_COMPOUND_SPLIT,
          partition_search_breakout_dist_thr := 1 <<< 21 }
    else sf
  let sf :=
    if 2 ≤ speed then
      let sf :=
        if 720 ≤ min ctx.width ctx.height then
          { sf with
            disable_split_mask :=
              if ctx.show_frame then DISABLE_ALL_SPLIT else DISABLE_ALL_INTER_SPLIT,
            adaptive_pred_interp_filter := 0,
            partition_search_breakout_dist_thr := 1 <<< 24,
            partition_search_breakout_rate_thr := 120 }
        else
          { sf with
            disable_split_mask := LAST_AND_INTRA_SPLIT_ONLY,
            partition_search_breakout_dist_thr := 1 <<< 22,
            partition_search_breakout_rate_thr := 100 }
      { sf with
        rd_auto_partition_min_limit := set_partition_min_limit ctx.width ctx.height }
    else sf
  let sf :=
    if 3 ≤ speed then
      if 720 ≤ min ctx.width ctx.height then
        { sf with
          disable_split_mask := DISABLE_ALL_SPLIT,
          schedule_mode_search := if ctx.base_qindex < 220 then 1 else 0,
          partition_search_breakout_dist_thr := 1 <<< 25,
          partition_search_breakout_rate_thr := 200 }
      else
        { sf with
          max_intra_bsize := BLOCK_32X32,
          disable_split_mask := DISABLE_ALL_INTER_SPLIT,
          schedule_mode_search := if ctx.base_qindex < 175 then 1 else 0,
          partition_search_breakout_dist_thr := 1 <<< 23,
          partition_search_breakout_rate_thr := 120 }
    else sf
  -- Two-pass graphics/animation (or internal image edge) content reset.
  let sf :=
    if 1 ≤ speed ∧ ctx.pass = 2 ∧
        (ctx.fr_content_type = FC_CONTENT_TYPE.FC_GRAPHICS_ANIMATION ∨
          ctx.internal_image_edge = true) then
      { sf with disable_split_mask := DISABLE_COMPOUND_SPLIT }
    else sf
  let sf :=
    if 4 ≤ speed then
      let sf :=
        if 720 ≤ min ctx.width ctx.height then
          { sf with partition_search_breakout_dist_thr := 1 <<< 26 }
        else
          { sf with partition_search_breakout_dist_thr := 1 <<< 24 }
      { sf with disable_split_mask := DISABLE_ALL_SPLIT }
    else sf
  sf

/-- set_good_speed_feature: good-quality geometry-independent tiered
resolver (speed_features.c lines 132-249). -/
def set_good_speed_feature (ctx : EncCtx) (sf0 : SPEED_FEATURES)
    (speed : Nat) : SPEED_FEATURES :=
  let boosted := frame_is_boosted ctx
  let sf := sf0
  let sf :=
    if 1 ≤ speed then
      { sf with
        tx_type_search :=
          { sf.tx_type_search with
            fast_intra_tx_type_search := 1,
            fast_inter_tx_type_search := 1 } }
    else sf
  let sf :=
    if 2 ≤ speed then
      let sf :=
        if ctx.fr_content_type = FC_CONTENT_TYPE.FC_GRAPHICS_ANIMATION ∨
            ctx.internal_image_edge = true then
          { sf with
            use_square_partition_only := if frame_is_boosted ctx then 0 else 1 }
        else
          { sf with
            use_square_partition_only := if frame_is_intra_only ctx then 0 else 1 }
      { sf with
        less_rectangular_check := 1,
        use_rd_breakout := 1,
        adaptive_motion_search := 1,
        mv := { sf.mv with auto_mv_step_size := 1, subpel_iters_per_step := 1 },
        adaptive_rd_thresh := 1,
        mode_skip_start := 10,
        adaptive_pred_interp_filter := 1,
        recode_loop := RECODE_LOOP_TYPE.ALLOW_RECODE_KFARFGF,
        intra_y_mode_mask :=
          (sf.intra_y_mode_mask.set TX_32X32 INTRA_DC_H_V).set TX_16X16 INTRA_DC_H_V,
        intra_uv_mode_mask :=
          (sf.intra_uv_mode_mask.set TX_32X32 INTRA_DC_H_V).set TX_16X16 INTRA_DC_H_V,
        tx_size_search_breakout := 1,
        partition_search_breakout_rate_thr := 80,
        tx_type_search :=
          { sf.tx_type_search with prune_mode := TX_TYPE_PRUNE_MODE.PRUNE_ONE },
        use_transform_domain_distortion := 1 }
    else sf
  let sf :=
    if 3 ≤ speed then
      { sf with
        tx_size_search_method :=
          if frame_is_boosted ctx then TX_SIZE_SEARCH_METHOD.USE_FULL_RD
          else TX_SIZE_SEARCH_METHOD.USE_LARGESTALL,
        mode_search_skip_flags :=
          if ctx.frame_type = FRAME_TYPE.KEY_FRAME then 0
          else
            FLAG_SKIP_INTRA_DIRMISMATCH ||| FLAG_SKIP_INTRA_BESTINTER |||
              FLAG_SKIP_COMP_BESTINTRA ||| FLAG_SKIP_INTRA_LOWVAR,
        disable_filter_search_var_thresh := 100,
        comp_inter_joint_search_thresh := BLOCK_SIZES,
        auto_min_max_partition_size := AUTO_MIN_MAX_MODE.RELAXED_NEIGHBORING_MIN_MAX,
        allow_partition_search_skip := 1,
        use_upsampled_references := 0,
        adaptive_rd_thresh := 2 }
    else sf
  let sf :=
    if 4 ≤ speed then
      { sf with
        use_square_partition_only := if frame_is_intra_only ctx then 0 else 1,
        tx_size_search_method :=
          if frame_is_intra_only ctx then TX_SIZE_SEARCH_METHOD.USE_FULL_RD
          else TX_SIZE_SEARCH_METHOD.USE_LARGESTALL,
        mv := { sf.mv with
                subpel_search_method := SUBPEL_SEARCH_METHODS.SUBPEL_TREE_PRUNED },
        adaptive_pred_interp_filter := 0,
        adaptive_mode_search := 1,
        cb_partition_search := if boosted then 0 else 1,
        cb_pred_filter_search := 1,
        alt_ref_search_fp := 1,
        recode_loop := RECODE_LOOP_TYPE.ALLOW_RECODE_KFMAXBW,
        adaptive_rd_thresh := 3,
        mode_skip_start := 6,
        intra_y_mode_mask := sf.intra_y_mode_mask.set TX_32X32 INTRA_DC,
        intra_uv_mode_mask := sf.intra_uv_mode_mask.set TX_32X32 INTRA_DC,
        adaptive_interp_filter_search := 1 }
    else sf
  let sf :=
    if 5 ≤ speed then
      { sf with
        use_square_partition_only := 1,
        tx_size_search_method := TX_SIZE_SEARCH_METHOD.USE_LARGESTALL,
        mv := { sf.mv with
                search_method := SEARCH_METHODS.BIGDIA,
                subpel_search_method := SUBPEL_SEARCH_METHODS.SUBPEL_TREE_PRUNED_MORE },
        adaptive_rd_thresh := 4,
        mode_search_skip_flags :=
          if ctx.frame_type ≠ FRAME_TYPE.KEY_FRAME then
            sf.mode_search_skip_flags ||| FLAG_EARLY_TERMINATE
          else sf.mode_search_skip_flags,
        disable_filter_search_var_thresh := 200,
        use_fast_coef_updates := FAST_COEFF_UPDATE.ONE_LOOP_REDUCED,
        use_fast_coef_costing := 1,
        partition_search_breakout_rate_thr := 300 }
    else sf
  let sf :=
    if 6 ≤ speed then
      { sf with
        optimize_coefficients := 0,
        mv := { sf.mv with
                search_method := SEARCH_METHODS.HEX,
                reduce_first_step_size := 1 },
        disable_filter_search_var_thresh := 500,
        intra_y_mode_mask := List.replicate TX_SIZES INTRA_DC,
        intra_uv_mode_mask := List.replicate TX_SIZES INTRA_DC,
        partition_search_breakout_rate_thr := 500,
        simple_model_rd_from_var := 1 }
    else sf
  sf

/-- set_rt_speed_feature_framesize_dependent: realtime geometry-dependent
tiered resolver (speed_features.c lines 251-280). -/
def set_rt_speed_feature_framesize_dependent (ctx : EncCtx)
    (sf0 : SPEED_FEATURES) (speed : Nat) : SPEED_FEATURES :=
  let sf := sf0
  let sf :=
    if 1 ≤ speed then
      if 720 ≤ min ctx.width ctx.height then
        { sf with
          disable_split_mask :=
            if ctx.show_frame then DISABLE_ALL_SPLIT else DISABLE_ALL_INTER_SPLIT }
      else
        { sf with disable_split_mask := DISABLE_COMPOUND_SPLIT }
    else sf
  let sf :=
    if 2 ≤ speed then
      if 720 ≤ min ctx.width ctx.height then
        { sf with
          disable_split_mask :=
            if ctx.show_frame then DISABLE_ALL_SPLIT else DISABLE_ALL_INTER_SPLIT }
      else
        { sf with disable_split_mask := LAST_AND_INTRA_SPLIT_ONLY }
    else sf
  let sf :=
    if 5 ≤ speed then
      if 720 ≤ min ctx.width ctx.height then
        { sf with partition_search_breakout_dist_thr := 1 <<< 25 }
      else
        { sf with partition_search_breakout_dist_thr := 1 <<< 23 }
    else sf
  sf

/-- set_rt_speed_feature: realtime geometry-independent tiered resolver
(speed_features.c lines 282-447). -/
def set_rt_speed_feature (ctx : EncCtx) (sf0 : SPEED_FEATURES)
    (speed : Nat) (content : aom_tune_content) : SPEED_FEATURES :=
  let is_keyframe : Bool := decide (ctx.frame_type = FRAME_TYPE.KEY_FRAME)
  let frames_since_key := if is_keyframe then 0 else ctx.frames_since_key
  let sf :=
    { sf0 with
      static_segmentation := 0,
      adaptive_rd_thresh := 1,
      use_fast_coef_costing := 1,
      allow_exhaustive_searches := 0,
      exhaustive_searches_thresh := INT_MAX,
      use_upsampled_references := 0,
      use_transform_domain_distortion := 1 }
  let sf :=
    if 1 ≤ speed then
      { sf with
        use_square_partition_only := if frame_is_intra_only ctx then 0 else 1,
        less_rectangular_check := 1,
        tx_size_search_method :=
          if frame_is_intra_only ctx then TX_SIZE_SEARCH_METHOD.USE_FULL_RD
          else TX_SIZE_SEARCH_METHOD.USE_LARGESTALL,
        use_rd_breakout := 1,
        adaptive_motion_search := 1,
        adaptive_pred_interp_filter := 1,
        mv := { sf.mv with auto_mv_step_size := 1 },
        adaptive_rd_thresh := 2,
        intra_y_mode_mask := sf.intra_y_mode_mask.set TX_32X32 INTRA_DC_H_V,
        intra_uv_mode_mask :=
          (sf.intra_uv_mode_mask.set TX_32X32 INTRA_DC_H_V).set TX_16X16 INTRA_DC_H_V }
    else sf
  let sf :=
    if 2 ≤ speed then
      { sf with
        mode_search_skip_flags :=
          if ctx.frame_type = FRAME_TYPE.KEY_FRAME then 0
          else
            FLAG_SKIP_INTRA_DIRMISMATCH ||| FLAG_SKIP_INTRA_BESTINTER |||
              FLAG_SKIP_COMP_BESTINTRA ||| FLAG_SKIP_INTRA_LOWVAR,
        adaptive_pred_interp_filter := 2,
        disable_filter_search_var_thresh := 50,
        comp_inter_joint_search_thresh := BLOCK_SIZES,
        auto_min_max_partition_size := AUTO_MIN_MAX_MODE.RELAXED_NEIGHBORING_MIN_MAX,
        lf_motion_threshold := LOW_MOTION_THRESHOLD,
        adjust_partitioning_from_last_frame := 1,
        last_partitioning_redo_frequency := 3,
        mode_skip_start := 11,
        intra_y_mode_mask := sf.intra_y_mode_mask.set TX_16X16 INTRA_DC_H_V }
    else sf
  let sf :=
    if 3 ≤ speed then
      { sf with
        use_square_partition_only := 1,
        disable_filter_search_var_thresh := 100,
        mv := { sf.mv with subpel_iters_per_step := 1 },
        adaptive_rd_thresh := 4,
        mode_skip_start := 6,
        optimize_coefficients := 0,
        disable_split_mask := DISABLE_ALL_SPLIT,
        lpf_pick := LPF_PICK_METHOD.LPF_PICK_FROM_Q }
    else sf
  let sf :=
    if 4 ≤ speed then
      let sf :=
        { sf with
          last_partitioning_redo_frequency := 4,
          adaptive_rd_thresh := 5,
          use_fast_coef_costing := 0,
          auto_min_max_partition_size := AUTO_MIN_MAX_MODE.STRICT_NEIGHBORING_MIN_MAX }
      { sf with
        adjust_partitioning_from_last_frame :=
          if ctx.last_frame_type ≠ ctx.frame_type ∨
              (frames_since_key + 1) % sf.last_partitioning_redo_frequency = 0
          then 1 else 0,
        mv := { sf.mv with
                subpel_force_stop := 1,
                search_method := SEARCH_METHODS.FAST_HEX },
        intra_y_mode_mask :=
          (List.replicate TX_SIZES INTRA_DC_H_V).set TX_32X32 INTRA_DC,
        intra_uv_mode_mask := List.replicate TX_SIZES INTRA_DC,
        frame_parameter_update := 0,
        inter_mode_mask :=
          (((sf.inter_mode_mask.set BLOCK_32X32 INTER_NEAREST_NEAR_NEW).set
              BLOCK_32X64 INTER_NEAREST).set
            BLOCK_64X32 INTER_NEAREST).set BLOCK_64X64 INTER_NEAREST,
        max_intra_bsize := BLOCK_32X32 }
    else sf
  let sf :=
    if 5 ≤ speed then
      let sf :=
        { sf with
          auto_min_max_partition_size :=
            if is_keyframe then AUTO_MIN_MAX_MODE.RELAXED_NEIGHBORING_MIN_MAX
            else AUTO_MIN_MAX_MODE.STRICT_NEIGHBORING_MIN_MAX,
          default_max_partition_size := BLOCK_32X32,
          default_min_partition_size := BLOCK_8X8 }
      let sf :=
        { sf with
          force_frame_boost :=
            if is_keyframe ∨
                frames_since_key % (sf.last_partitioning_redo_frequency <<< 1) = 1
            then 1 else 0,
          max_delta_qindex := if is_keyframe then 20 else 15,
          partition_search_type := PARTITION_SEARCH_TYPE.REFERENCE_PARTITION,
          inter_mode_mask :=
            (((sf.inter_mode_mask.set BLOCK_32X32 INTER_NEAREST_NEW_ZERO).set
                BLOCK_32X64 INTER_NEAREST_NEW_ZERO).set
              BLOCK_64X32 INTER_NEAREST_NEW_ZERO).set
              BLOCK_64X64 INTER_NEAREST_NEW_ZERO,
          adaptive_rd_thresh := 2,
          reuse_inter_pred_sby := 1,
          partition_search_breakout_rate_thr := 200,
          coeff_prob_appx_step := 4,
          use_fast_coef_updates :=
            if is_keyframe then FAST_COEFF_UPDATE.TWO_LOOP
            else FAST_COEFF_UPDATE.ONE_LOOP_REDUCED,
          mode_search_skip_flags := FLAG_SKIP_INTRA_DIRMISMATCH,
          tx_size_search_method :=
            if is_keyframe then TX_SIZE_SEARCH_METHOD.USE_LARGESTALL
            else TX_SIZE_SEARCH_METHOD.USE_TX_8X8,
          simple_model_rd_from_var := 1 }
      if ¬ is_keyframe then
        if content = aom_tune_content.AOM_CONTENT_SCREEN then
          { sf with
            intra_y_mode_bsize_mask := List.replicate BLOCK_SIZES INTRA_DC_TM_H_V }
        else
          { sf with
            intra_y_mode_bsize_mask :=
              List.ofFn fun i : Fin BLOCK_SIZES =>
                if BLOCK_16X16 ≤ i.val then INTRA_DC else INTRA_DC_H_V }
      else sf
    else sf
  let sf :=
    if 6 ≤ speed then
      { sf with
        partition_search_type := PARTITION_SEARCH_TYPE.VAR_BASED_PARTITION,
        mv := { sf.mv with
                search_method := SEARCH_METHODS.NSTEP,
                reduce_first_step_size := 1 } }
    else sf
  let sf :=
    if 7 ≤ speed then
      { sf with
        adaptive_rd_thresh := 3,
        mv := { sf.mv with
                search_method := SEARCH_METHODS.FAST_DIAMOND,
                fullpel_search_step_param := 10 } }
    else sf
  let sf :=
    if 8 ≤ speed then
      { sf with
        adaptive_rd_thresh := 4,
        mv := { sf.mv with subpel_force_stop := 2 },
        lpf_pick := LPF_PICK_METHOD.LPF_PICK_MINIMAL_LPF }
    else sf
  sf

/-- Output of the geometry-dependent entry point: the updated profile and
the updated rd->thresh_mult_sub8x8 array. -/
structure FsDependentResult where
  sf : SPEED_FEATURES
  thresh_mult_sub8x8 : List Int
deriving DecidableEq

/-- av1_set_speed_features_framesize_dependent (speed_features.c lines
449-477): memory guard, mode dispatch, cross-field consistency corrector
and masked-split sentinel thresholds. -/
def av1_set_speed_features_framesize_dependent (ctx : EncCtx)
    (sf0 : SPEED_FEATURES) (rd0 : List Int) : FsDependentResult :=
  let sf :=
    if 1080 < min ctx.width ctx.height then
      { sf0 with use_upsampled_references := 0 }
    else sf0
  let sf :=
    if ctx.mode = ENC_MODE.REALTIME then
      set_rt_speed_feature_framesize_dependent ctx sf ctx.speed
    else if ctx.mode = ENC_MODE.GOOD then
      set_good_speed_feature_framesize_dependent ctx sf ctx.speed
    else sf
  let sf :=
    if sf.disable_split_mask = DISABLE_ALL_SPLIT then
      { sf with adaptive_pred_interp_filter := 0 }
    else sf
  let rd :=
    rd0.mapIdx fun i v =>
      if i < MAX_REFS ∧ sf.disable_split_mask &&& (1 <<< i) ≠ 0 then
        ((INT_MAX : Nat) : Int)
      else v
  { sf := sf, thresh_mult_sub8x8 := rd }

/-- Best-quality defaults seeding (speed_features.c lines 486-566), applied
to the encoder-session profile before any tier runs.  The two
CONFIG_EXT_TILE-gated defaults take their baseline-build values
(use_upsampled_references = 1, use_transform_domain_distortion = 0). -/
def best_quality_defaults (ctx : EncCtx) (sf0 : SPEED_FEATURES) : SPEED_FEATURES :=
  { sf0 with
    frame_parameter_update := 1,
    mv :=
      { sf0.mv with
        search_method := SEARCH_METHODS.NSTEP,
        subpel_search_method := SUBPEL_SEARCH_METHODS.SUBPEL_TREE,
        subpel_iters_per_step := 2,
        subpel_force_stop := 0,
        reduce_first_step_size := 0,
        auto_mv_step_size := 0,
        fullpel_search_step_param := 6 },
    recode_loop := RECODE_LOOP_TYPE.ALLOW_RECODE,
    optimize_coefficients := if ctx.lossless_requested then 0 else 1,
    coeff_prob_appx_step := 1,
    comp_inter_joint_search_thresh := BLOCK_4X4,
    adaptive_rd_thresh := 0,
    tx_size_search_method := TX_SIZE_SEARCH_METHOD.USE_FULL_RD,
    adaptive_motion_search := 0,
    adaptive_pred_interp_filter := 0,
    adaptive_mode_search := 0,
    cb_pred_filter_search := 0,
    cb_partition_search := 0,
    alt_ref_search_fp := 0,
    partition_search_type := PARTITION_SEARCH_TYPE.SEARCH_PARTITION,
    tx_type_search :=
      { prune_mode := TX_TYPE_PRUNE_MODE.NO_PRUNE,
        fast_intra_tx_type_search := 0,
        fast_inter_tx_type_search := 0 },
    less_rectangular_check := 0,
    use_square_partition_only := 0,
    auto_min_max_partition_size := AUTO_MIN_MAX_MODE.NOT_IN_USE,
    rd_auto_partition_min_limit := BLOCK_4X4,
    default_max_partition_size := BLOCK_LARGEST,
    default_min_partition_size := BLOCK_4X4,
    adjust_partitioning_from_last_frame := 0,
    last_partitioning_redo_frequency := 4,
    disable_split_mask := 0,
    mode_search_skip_flags := 0,
    force_frame_boost := 0,
    max_delta_qindex := 0,
    disable_filter_search_var_thresh := 0,
    adaptive_interp_filter_search := 0,
    allow_partition_search_skip := 0,
    use_upsampled_references := 1,
    intra_y_mode_mask := List.replicate TX_SIZES INTRA_ALL,
    intra_uv_mode_mask := List.replicate TX_SIZES INTRA_ALL,
    use_rd_breakout := 0,
    lpf_pick := LPF_PICK_METHOD.LPF_PICK_FROM_FULL_IMAGE,
    use_fast_coef_updates := FAST_COEFF_UPDATE.TWO_LOOP,
    use_fast_coef_costing := 0,
    mode_skip_start := MAX_MODES,
    schedule_mode_search := 0,
    inter_mode_mask := List.replicate BLOCK_SIZES INTER_ALL,
    max_intra_bsize := BLOCK_LARGEST,
    reuse_inter_pred_sby := 0,
    always_this_block_size := BLOCK_16X16,
    search_type_check_frequency := 50,
    recode_tolerance := 25,
    default_interp_filter := SWITCHABLE,
    tx_size_search_breakout := 0,
    partition_search_breakout_dist_thr := 0,
    partition_search_breakout_rate_thr := 0,
    simple_model_rd_from_var := 0,
    use_transform_domain_distortion := 0 }

/-- Mesh/exhaustive-search table selector (speed_features.c lines 573-608),
preceded by the superblock-size renormalisation of the distortion-breakout
threshold (a no-op in the MAX_SB_SIZE_LOG2 = 6 baseline build). -/
def select_mesh_features (ctx : EncCtx) (sf0 : SPEED_FEATURES) : SPEED_FEATURES :=
  let sf :=
    if 6 < MAX_SB_SIZE_LOG2 then
      { sf0 with
        partition_search_breakout_dist_thr :=
          sf0.partition_search_breakout_dist_thr <<< (2 * (MAX_SB_SIZE_LOG2 - 6)) }
    else sf0
  let sf := { sf with allow_exhaustive_searches := 1 }
  if ctx.mode = ENC_MODE.BEST then
    let sf :=
      if ctx.fr_content_type = FC_CONTENT_TYPE.FC_GRAPHICS_ANIMATION then
        { sf with exhaustive_searches_thresh := 1 <<< 20 }
      else
        { sf with exhaustive_searches_thresh := 1 <<< 21 }
    { sf with
      max_exaustive_pct := 100,
      mesh_patterns := best_quality_mesh_pattern }
  else
    let speed := if MAX_MESH_SPEED < ctx.speed then MAX_MESH_SPEED else ctx.speed
    let sf :=
      if ctx.fr_content_type = FC_CONTENT_TYPE.FC_GRAPHICS_ANIMATION then
        { sf with exhaustive_searches_thresh := 1 <<< 22 }
      else
        { sf with exhaustive_searches_thresh := 1 <<< 23 }
    let sf := { sf with max_exaustive_pct := good_quality_max_mesh_pct.getD speed 0 }
    let sf :=
      if 0 < speed then
        { sf with exhaustive_searches_thresh := sf.exhaustive_searches_thresh <<< 1 }
      else sf
    { sf with mesh_patterns := good_quality_mesh_patterns.getD speed [] }

/-- Pass/mode finalizer (speed_features.c lines 610-618 and 640-642):
first-pass and single-pass overrides, and the periodic-boost gate on
max_delta_qindex. -/
def pass_and_mode_finalize (ctx : EncCtx) (sf0 : SPEED_FEATURES) : SPEED_FEATURES :=
  let sf := if ctx.pass = 1 then { sf0 with optimize_coefficients := 0 } else sf0
  let sf :=
    if ctx.pass = 0 then
      { sf with
        recode_loop := RECODE_LOOP_TYPE.DISALLOW_RECODE,
        optimize_coefficients := 0 }
    else sf
  if ¬ ctx.frame_periodic_boost then { sf with max_delta_qindex := 0 } else sf

/-- Output of the geometry-independent entry point: the profile plus the
auxiliary encoder-state outputs the C function writes (the sub-pixel
refinement binding and the MACROBLOCK fields). -/
structure FsIndependentResult where
  sf : SPEED_FEATURES
  find_fractional_mv_step : FRACTIONAL_MV_STEP_FN
  x_optimize : Bool
  x_min_partition_size : Nat
  x_max_partition_size : Nat
deriving DecidableEq

/-- av1_set_speed_features_framesize_independent (speed_features.c lines
479-643): defaults seeding, mode dispatch, mesh selector, pass/mode
finalizer, and the auxiliary bindings. -/
def av1_set_speed_features_framesize_independent (ctx : EncCtx)
    (sf0 : SPEED_FEATURES) : FsIndependentResult :=
  let sf := best_quality_defaults ctx sf0
  let sf :=
    if ctx.mode = ENC_MODE.REALTIME then
      set_rt_speed_feature ctx sf ctx.speed ctx.content
    else if ctx.mode = ENC_MODE.GOOD then
      set_good_speed_feature ctx sf ctx.speed
    else sf
  let sf := select_mesh_features ctx sf
  let sf := pass_and_mode_finalize ctx sf
  { sf := sf,
    find_fractional_mv_step :=
      match sf.mv.subpel_search_method with
      | SUBPEL_SEARCH_METHODS.SUBPEL_TREE =>
          FRACTIONAL_MV_STEP_FN.av1_find_best_sub_pixel_tree
      | SUBPEL_SEARCH_METHODS.SUBPEL_TREE_PRUNED =>
          FRACTIONAL_MV_STEP_FN.av1_find_best_sub_pixel_tree_pruned
      | SUBPEL_SEARCH_METHODS.SUBPEL_TREE_PRUNED_MORE =>
          FRACTIONAL_MV_STEP_FN.av1_find_best_sub_pixel_tree_pruned_more
      | SUBPEL_SEARCH_METHODS.SUBPEL_TREE_PRUNED_EVENMORE =>
          FRACTIONAL_MV_STEP_FN.av1_find_best_sub_pixel_tree_pruned_evenmore,
    x_optimize := (sf.optimize_coefficients == 1) && !(ctx.pass == 1),
    x_min_partition_size := sf.default_min_partition_size,
    x_max_partition_size := sf.default_max_partition_size }

/-- Full per-frame resolution: the geometry-independent resolver runs
first, the geometry-dependent resolver second on its output (spec section
2 control flow). -/
def resolve_full (ctx : EncCtx) (sf0 : SPEED_FEATURES) (rd0 : List Int) :
    FsIndependentResult × FsDependentResult :=
  let ind := av1_set_speed_features_framesize_independent ctx sf0
  (ind, av1_set_speed_features_framesize_dependent ctx ind.sf rd0)

/-- Context with the speed level replaced. -/
def withSpeed (ctx : EncCtx) (s : Nat) : EncCtx := { ctx with speed := s }

/-- Context with the frame geometry replaced. -/
def withGeom (ctx : EncCtx) (w h : Nat) : EncCtx :=
  { ctx with width := w, height := h }

/-- Context with the encoding mode replaced. -/
def withMode (ctx : EncCtx) (m : ENC_MODE) : EncCtx := { ctx with mode := m }

/-- Context with the two-pass content classification replaced. -/
def withContentType (ctx : EncCtx) (fc : FC_CONTENT_TYPE) : EncCtx :=
  { ctx with fr_content_type := fc }

/-- A concrete session-profile value used as the incoming profile state in
concrete-input witness theorems (its contents are irrelevant: the
resolvers overwrite every field a claim mentions). -/
def sf_init : SPEED_FEATURES :=
  { frame_parameter_update := 0,
    mv :=
      { search_method := SEARCH_METHODS.NSTEP,
        reduce_first_step_size := 0,
        auto_mv_step_size := 0,
        subpel_search_method := SUBPEL_SEARCH_METHODS.SUBPEL_TREE,
        subpel_iters_per_step := 0,
        subpel_force_stop := 0,
        fullpel_search_step_param := 6 },
    recode_loop := RECODE_LOOP_TYPE.ALLOW_RECODE,
    optimize_coefficients := 1,
    coeff_prob_appx_step := 1,
    comp_inter_joint_search_thresh := 0,
    adaptive_rd_thresh := 0,
    tx_size_search_method := TX_SIZE_SEARCH_METHOD.USE_FULL_RD,
    adaptive_motion_search := 0,
    adaptive_pred_interp_filter := 0,
    adaptive_mode_search := 0,
    cb_pred_filter_search := 0,
    cb_partition_search := 0,
    alt_ref_search_fp := 0,
    partition_search_type := PARTITION_SEARCH_TYPE.SEARCH_PARTITION,
    tx_type_search :=
      { prune_mode := TX_TYPE_PRUNE_MODE.NO_PRUNE,
        fast_intra_tx_type_search := 0,
        fast_inter_tx_type_search := 0 },
    less_rectangular_check := 0,
    use_square_partition_only := 0,
    auto_min_max_partition_size := AUTO_MIN_MAX_MODE.NOT_IN_USE,
    rd_auto_partition_min_limit := 0,
    default_max_partition_size := 12,
    default_min_partition_size := 0,
    adjust_partitioning_from_last_frame := 0,
    last_partitioning_redo_frequency := 4,
    disable_split_mask := 0,
    mode_search_skip_flags := 0,
    force_frame_boost := 0,
    max_delta_qindex := 0,
    disable_filter_search_var_thresh := 0,
    adaptive_interp_filter_search := 0,
    allow_partition_search_skip := 0,
    use_upsampled_references := 1,
    intra_y_mode_mask := List.replicate TX_SIZES INTRA_ALL,
    intra_uv_mode_mask := List.replicate TX_SIZES INTRA_ALL,
    use_rd_breakout := 0,
    lpf_pick := LPF_PICK_METHOD.LPF_PICK_FROM_FULL_IMAGE,
    use_fast_coef_updates := FAST_COEFF_UPDATE.TWO_LOOP,
    use_fast_coef_costing := 0,
    mode_skip_start := 30,
    schedule_mode_search := 0,
    inter_mode_mask := List.replicate BLOCK_SIZES INTER_ALL,
    max_intra_bsize := 12,
    reuse_inter_pred_sby := 0,
    always_this_block_size := 6,
    search_type_check_frequency := 50,
    recode_tolerance := 25,
    default_interp_filter := SWITCHABLE,
    tx_size_search_breakout := 0,
    partition_search_breakout_dist_thr := 0,
    partition_search_breakout_rate_thr := 0,
    simple_model_rd_from_var := 0,
    use_transform_domain_distortion := 0,
    static_segmentation := 0,
    lf_motion_threshold := 0,
    intra_y_mode_bsize_mask := List.replicate BLOCK_SIZES INTRA_ALL,
    allow_exhaustive_searches := 0,
    exhaustive_searches_thresh := 0,
    max_exaustive_pct := 0,
    mesh_patterns := List.replicate MAX_MESH_STEP ⟨0, 0⟩ }

/-- A concrete baseline context for witness theorems. -/
def ctx0 : EncCtx :=
  { speed := 0,
    mode := ENC_MODE.GOOD,
    pass := 2,
    width := 640,
    height := 480,
    show_frame := true,
    base_qindex := 100,
    frame_type := FRAME_TYPE.INTER_FRAME,
    last_frame_type := FRAME_TYPE.INTER_FRAME,
    intra_only := false,
    frames_since_key := 10,
    frame_is_kf_gf_arf := false,
    fr_content_type := FC_CONTENT_TYPE.FC_NORMAL,
    internal_image_edge := false,
    content := aom_tune_content.AOM_CONTENT_DEFAULT,
    lossless_requested := false,
    frame_periodic_boost := false }

/-- A concrete baseline rd->thresh_mult_sub8x8 array. -/
def rd0 : List Int := List.replicate MAX_REFS 0

/-- C7: the minimum auto-partition limit has exactly three bands by pixel
area, with the lower boundary of each band included in the higher tier:
area < 1280*720 gives BLOCK_4X4, 1280*720 <= area < 1920*1080 gives
BLOCK_8X8 (so area exactly 1280*720 gives the mid tier), and
area >= 1920*1080 gives BLOCK_16X16 (so area exactly 1920*1080 gives the
large tier). -/
theorem c7_partition_min_limit_bands (w h : Nat) :
    (set_partition_min_limit w h = BLOCK_4X4 ↔ w * h < 1280 * 720) ∧
    (set_partition_min_limit w h = BLOCK_8X8 ↔
      (1280 * 720 ≤ w * h ∧ w * h < 1920 * 1080)) ∧
    (set_partition_min_limit w h = BLOCK_16X16 ↔ 1920 * 1080 ≤ w * h) := by
  have key : ∀ a : Nat,
      ((if a < 1280 * 720 then BLOCK_4X4
        else if a < 1920 * 1080 then BLOCK_8X8 else BLOCK_16X16) = BLOCK_4X4 ↔
          a < 1280 * 720) ∧
      ((if a < 1280 * 720 then BLOCK_4X4
        else if a < 1920 * 1080 then BLOCK_8X8 else BLOCK_16X16) = BLOCK_8X8 ↔
          (1280 * 720 ≤ a ∧ a < 1920 * 1080)) ∧
      ((if a < 1280 * 720 then BLOCK_4X4
        else if a < 1920 * 1080 then BLOCK_8X8 else BLOCK_16X16) = BLOCK_16X16 ↔
          1920 * 1080 ≤ a) := by
    intro a
    simp only [BLOCK_4X4, BLOCK_8X8, BLOCK_16X16]
    split_ifs <;> simp <;> omega
  exact key (w * h)

/-- Cross-field consistency corrector in isolation: whatever profile state
the tiered resolvers produced, after the corrector a disable-all-splits
mask forces adaptive_pred_interp_filter to 0. -/
theorem corrector_apif (sf1 : SPEED_FEATURES)
    (h : (if sf1.disable_split_mask = DISABLE_ALL_SPLIT then
            { sf1 with adaptive_pred_interp_filter := 0 }
          else sf1).disable_split_mask = DISABLE_ALL_SPLIT) :
    (if sf1.disable_split_mask = DISABLE_ALL_SPLIT then
        { sf1 with adaptive_pred_interp_filter := 0 }
      else sf1).adaptive_pred_interp_filter = 0 := by
  by_cases c : sf1.disable_split_mask = DISABLE_ALL_SPLIT
  · simp [c]
  · simp only [if_neg c] at h
    exact absurd h c

/-- C4: for every mode, speed, geometry and frame context, after the
geometry-dependent resolution pass completes, a resolved disable-mask equal
to DISABLE_ALL_SPLIT implies adaptive_pred_interp_filter = 0. -/
theorem c4_all_split_disables_adaptive_interp (ctx : EncCtx)
    (sf : SPEED_FEATURES) (rd : List Int)
    (h : (av1_set_speed_features_framesize_dependent ctx sf rd).sf.disable_split_mask
          = DISABLE_ALL_SPLIT) :
    (av1_set_speed_features_framesize_dependent ctx sf rd).sf.adaptive_pred_interp_filter
      = 0 := by
  simp only [av1_set_speed_features_framesize_dependent] at h ⊢
  exact corrector_apif _ h

/-- Concrete context reaching disable_split_mask = DISABLE_ALL_SPLIT:
good-quality mode at speed 4. -/
def ctx_c4 : EncCtx := { ctx0 with speed := 4 }

/-- C4 witness: the hypothesis is satisfiable (good mode, speed 4 resolves
the mask to DISABLE_ALL_SPLIT) and there the theorem yields
adaptive_pred_interp_filter = 0. -/
theorem c4_witness :
    (av1_set_speed_features_framesize_dependent ctx_c4 sf_init rd0).sf.disable_split_mask
        = DISABLE_ALL_SPLIT ∧
    (av1_set_speed_features_framesize_dependent ctx_c4 sf_init rd0).sf.adaptive_pred_interp_filter
        = 0 :=
  ⟨by decide, c4_all_split_disables_adaptive_interp ctx_c4 sf_init rd0 (by decide)⟩

/-- C5: the pass/mode finalizer wins over every upstream tier assignment:
for pass = 1 (first pass of two-pass) the resolved optimize_coefficients is
0 regardless of speed and mode; for pass = 0 (single pass)
optimize_coefficients is 0 and recode_loop is DISALLOW_RECODE regardless of
speed and mode. -/
theorem c5_pass_overrides (ctx : EncCtx) (sf0 : SPEED_FEATURES) :
    (ctx.pass = 1 →
      (av1_set_speed_features_framesize_independent ctx sf0).sf.optimize_coefficients
        = 0) ∧
    (ctx.pass = 0 →
      (av1_set_speed_features_framesize_independent ctx sf0).sf.optimize_coefficients
          = 0 ∧
        (av1_set_speed_features_framesize_independent ctx sf0).sf.recode_loop
          = RECODE_LOOP_TYPE.DISALLOW_RECODE) := by
  constructor
  · intro h
    simp only [av1_set_speed_features_framesize_independent, pass_and_mode_finalize, h]
    simp [apply_ite SPEED_FEATURES.optimize_coefficients]
  · intro h
    simp only [av1_set_speed_features_framesize_independent, pass_and_mode_finalize, h]
    constructor
    · simp [apply_ite SPEED_FEATURES.optimize_coefficients]
    · simp [apply_ite SPEED_FEATURES.recode_loop]

/-- Concrete first-pass context. -/
def ctx_pass1 : EncCtx := { ctx0 with pass := 1 }

/-- Concrete single-pass context. -/
def ctx_pass0 : EncCtx := { ctx0 with pass := 0 }

/-- C5 witness: the theorem applied at a concrete first-pass context and at
a concrete single-pass context. -/
theorem c5_witness :
    (av1_set_speed_features_framesize_independent ctx_pass1 sf_init).sf.optimize_coefficients
        = 0 ∧
      ((av1_set_speed_features_framesize_independent ctx_pass0 sf_init).sf.optimize_coefficients
          = 0 ∧
        (av1_set_speed_features_framesize_independent ctx_pass0 sf_init).sf.recode_loop
          = RECODE_LOOP_TYPE.DISALLOW_RECODE) :=
  ⟨(c5_pass_overrides ctx_pass1 sf_init).1 rfl,
    (c5_pass_overrides ctx_pass0 sf_init).2 rfl⟩

/-- Concrete context refuting C1 as stated: good-quality mode, speed 4,
pass 2, graphics/animation content. -/
def ctx_c1 : EncCtx :=
  { ctx0 with
    speed := 4,
    fr_content_type := FC_CONTENT_TYPE.FC_GRAPHICS_ANIMATION }

/-- C1 counterexample: at speed 4 in good-quality mode with pass = 2 and
graphics/animation content, the geometry-dependent resolver finishes with
disable_split_mask = DISABLE_ALL_SPLIT, not DISABLE_COMPOUND_SPLIT: the
speed >= 4 disable-all-splits assignment runs after the content-based
override and wins over it. -/
theorem c1_counterexample :
    (av1_set_speed_features_framesize_dependent ctx_c1 sf_init rd0).sf.disable_split_mask
        = DISABLE_ALL_SPLIT ∧
      (av1_set_speed_features_framesize_dependent ctx_c1 sf_init rd0).sf.disable_split_mask
        ≠ DISABLE_COMPOUND_SPLIT := by
  exact ⟨by decide, by decide⟩

/-- C1 (amended): in good-quality mode, for speeds 1 through 3, whenever
pass = 2 and the content classification is graphics/animation (or the
frame has an internal image edge), the geometry-dependent resolver
finishes with disable_split_mask = DISABLE_COMPOUND_SPLIT: the
content-based override is applied after the speed 1-3 tier assignments and
wins over them, but it runs before (and is overridden by) the speed >= 4
unconditional disable-all-splits assignment. -/
theorem c1_amended_content_override (ctx : EncCtx) (sf : SPEED_FEATURES)
    (rd : List Int) (hm : ctx.mode = ENC_MODE.GOOD) (h1 : 1 ≤ ctx.speed)
    (h3 : ctx.speed ≤ 3) (hp : ctx.pass = 2)
    (hc : ctx.fr_content_type = FC_CONTENT_TYPE.FC_GRAPHICS_ANIMATION ∨
            ctx.internal_image_edge = true) :
    (av1_set_speed_features_framesize_dependent ctx sf rd).sf.disable_split_mask
      = DISABLE_COMPOUND_SPLIT := by
  have h4 : ¬ (4 ≤ ctx.speed) := by omega
  have hne : DISABLE_COMPOUND_SPLIT ≠ DISABLE_ALL_SPLIT := by decide
  simp only [av1_set_speed_features_framesize_dependent,
    set_good_speed_feature_framesize_dependent, hm]
  simp [h1, hp, hc, h4, hne, apply_ite SPEED_FEATURES.disable_split_mask]

/-- Concrete context on which the amended C1 applies: good-quality mode,
speed 2, pass 2, graphics/animation content. -/
def ctx_c1w : EncCtx :=
  { ctx0 with
    speed := 2,
    fr_content_type := FC_CONTENT_TYPE.FC_GRAPHICS_ANIMATION }

/-- C1 witness: the amended theorem applied at a concrete speed-2, pass-2,
graphics/animation context. -/
theorem c1_witness :
    (av1_set_speed_features_framesize_dependent ctx_c1w sf_init rd0).sf.disable_split_mask
      = DISABLE_COMPOUND_SPLIT :=
  c1_amended_content_override ctx_c1w sf_init rd0 rfl (by decide) (by decide) rfl
    (Or.inl rfl)

/-- Concrete best-quality context. -/
def ctx_best : EncCtx := { ctx0 with mode := ENC_MODE.BEST }

/-- C2 counterexample: at the best-quality tier the threshold for
graphics/animation content (2^20) is not double the default-content
threshold (2^21), and at good quality the speed-0 threshold (2^23) is not
double the speed-1 threshold (2^24); both relations are inverted. -/
theorem c2_counterexample :
    ¬ ((av1_set_speed_features_framesize_independent
          (withContentType ctx_best FC_CONTENT_TYPE.FC_GRAPHICS_ANIMATION)
          sf_init).sf.exhaustive_searches_thresh
        = 2 * (av1_set_speed_features_framesize_independent
            (withContentType ctx_best FC_CONTENT_TYPE.FC_NORMAL)
            sf_init).sf.exhaustive_searches_thresh) ∧
    ¬ ((av1_set_speed_features_framesize_independent (withSpeed ctx0 0)
          sf_init).sf.exhaustive_searches_thresh
        = 2 * (av1_set_speed_features_framesize_independent (withSpeed ctx0 1)
            sf_init).sf.exhaustive_searches_thresh) := by
  exact ⟨by decide, by decide⟩

/-- C2 (amended): the exhaustive-search activation distortion threshold
selected for graphics/animation content is HALF the threshold selected for
default content at the best-quality tier (2^20 versus 2^21), and at good
quality the speed-0 threshold is HALF the threshold used at speed >= 1
(the speed >= 1 threshold is the doubled one). -/
theorem c2_amended_thresh_halved (ctx : EncCtx) (sf0 : SPEED_FEATURES) (s : Nat) :
    (ctx.mode = ENC_MODE.BEST →
      2 * (av1_set_speed_features_framesize_independent
            (withContentType ctx FC_CONTENT_TYPE.FC_GRAPHICS_ANIMATION)
            sf0).sf.exhaustive_searches_thresh
        = (av1_set_speed_features_framesize_independent
            (withContentType ctx FC_CONTENT_TYPE.FC_NORMAL)
            sf0).sf.exhaustive_searches_thresh) ∧
    (ctx.mode ≠ ENC_MODE.BEST → 1 ≤ s →
      2 * (av1_set_speed_features_framesize_independent (withSpeed ctx 0)
            sf0).sf.exhaustive_searches_thresh
        = (av1_set_speed_features_framesize_independent (withSpeed ctx s)
            sf0).sf.exhaustive_searches_thresh) := by
  constructor
  · intro hm
    simp only [av1_set_speed_features_framesize_independent, select_mesh_features,
      pass_and_mode_finalize, withContentType, MAX_SB_SIZE_LOG2]
    simp [hm, apply_ite SPEED_FEATURES.exhaustive_searches_thresh]
  · intro hm hs
    have hm0 : ¬ ((withSpeed ctx 0).mode = ENC_MODE.BEST) := hm
    have hms : ¬ ((withSpeed ctx s).mode = ENC_MODE.BEST) := hm
    simp only [av1_set_speed_features_framesize_independent, select_mesh_features,
      pass_and_mode_finalize, withSpeed, MAX_SB_SIZE_LOG2, MAX_MESH_SPEED]
    by_cases h5 : 5 < s
    · simp [hm, h5, apply_ite SPEED_FEATURES.exhaustive_searches_thresh]
      split_ifs <;> decide
    · have h0 : 0 < s := by omega
      simp [hm, h5, h0, apply_ite SPEED_FEATURES.exhaustive_searches_thresh]
      split_ifs <;> decide

/-- C2 witness: the amended theorem applied at a concrete best-quality
context (part one) and at a concrete good-quality context with speed 3
against speed 0 (part two). -/
theorem c2_witness :
    (2 * (av1_set_speed_features_framesize_independent
            (withContentType ctx_best FC_CONTENT_TYPE.FC_GRAPHICS_ANIMATION)
            sf_init).sf.exhaustive_searches_thresh
        = (av1_set_speed_features_framesize_independent
            (withContentType ctx_best FC_CONTENT_TYPE.FC_NORMAL)
            sf_init).sf.exhaustive_searches_thresh) ∧
    (2 * (av1_set_speed_features_framesize_independent (withSpeed ctx0 0)
          sf_init).sf.exhaustive_searches_thresh
        = (av1_set_speed_features_framesize_independent (withSpeed ctx0 3)
            sf_init).sf.exhaustive_searches_thresh) :=
  ⟨(c2_amended_thresh_halved ctx_best sf_init 3).1 rfl,
    (c2_amended_thresh_halved ctx0 sf_init 3).2 (by decide) (by decide)⟩

/-- C3 counterexample: at tier 1 of the good-quality geometry-dependent
resolver, doubling the sub-720p distortion-breakout threshold (2^21) does
not reach the at-least-720p threshold (2^23): the sub-720p value is not
half of the larger-geometry value. -/
theorem c3_counterexample :
    ¬ (2 * (av1_set_speed_features_framesize_dependent (withSpeed ctx0 1)
          sf_init rd0).sf.partition_search_breakout_dist_thr
        = (av1_set_speed_features_framesize_dependent
            (withGeom (withSpeed ctx0 1) 1280 720)
            sf_init rd0).sf.partition_search_breakout_dist_thr) := by
  decide


/-- In good-quality mode, the geometry-dependent entry point leaves the
distortion-breakout threshold exactly as the good-quality resolver set it
(the consistency corrector only touches adaptive_pred_interp_filter). -/
theorem dep_dist_good (ctx : EncCtx) (sf : SPEED_FEATURES) (rd : List Int)
    (hm : ctx.mode = ENC_MODE.GOOD) :
    (av1_set_speed_features_framesize_dependent ctx sf rd).sf.partition_search_breakout_dist_thr
      = (set_good_speed_feature_framesize_dependent ctx
          (if 1080 < min ctx.width ctx.height then
            { sf with use_upsampled_references := 0 }
          else sf) ctx.speed).partition_search_breakout_dist_thr := by
  simp only [av1_set_speed_features_framesize_dependent]
  simp [hm, apply_ite SPEED_FEATURES.partition_search_breakout_dist_thr]

/-- Tier-1 distortion-breakout value of the good-quality geometry-dependent
resolver. -/
theorem good_fd_dist_tier1 (ctx : EncCtx) (sf : SPEED_FEATURES) :
    (set_good_speed_feature_framesize_dependent ctx sf 1).partition_search_breakout_dist_thr
      = (if 720 ≤ min ctx.width ctx.height then 1 <<< 23 else 1 <<< 21) := by
  simp only [set_good_speed_feature_framesize_dependent]
  simp [apply_ite SPEED_FEATURES.partition_search_breakout_dist_thr]

/-- Tier-2 distortion-breakout value of the good-quality geometry-dependent
resolver. -/
theorem good_fd_dist_tier2 (ctx : EncCtx) (sf : SPEED_FEATURES) :
    (set_good_speed_feature_framesize_dependent ctx sf 2).partition_search_breakout_dist_thr
      = (if 720 ≤ min ctx.width ctx.height then 1 <<< 24 else 1 <<< 22) := by
  simp only [set_good_speed_feature_framesize_dependent]
  simp [apply_ite SPEED_FEATURES.partition_search_breakout_dist_thr]

/-- Tier-3 distortion-breakout value of the good-quality geometry-dependent
resolver. -/
theorem good_fd_dist_tier3 (ctx : EncCtx) (sf : SPEED_FEATURES) :
    (set_good_speed_feature_framesize_dependent ctx sf 3).partition_search_breakout_dist_thr
      = (if 720 ≤ min ctx.width ctx.height then 1 <<< 25 else 1 <<< 23) := by
  simp only [set_good_speed_feature_framesize_dependent]
  simp [apply_ite SPEED_FEATURES.partition_search_breakout_dist_thr]

/-- Tier-4 distortion-breakout value of the good-quality geometry-dependent
resolver. -/
theorem good_fd_dist_tier4 (ctx : EncCtx) (sf : SPEED_FEATURES) :
    (set_good_speed_feature_framesize_dependent ctx sf 4).partition_search_breakout_dist_thr
      = (if 720 ≤ min ctx.width ctx.height then 1 <<< 26 else 1 <<< 24) := by
  simp only [set_good_speed_feature_framesize_dependent]
  simp [apply_ite SPEED_FEATURES.partition_search_breakout_dist_thr]

/-- C3 (amended): in the good-quality geometry-dependent resolver, at every
speed tier from 1 through 4, the partition_search_breakout_dist_thr
assigned for sub-720p geometry is exactly a QUARTER of (two bit-shifts
lower than) the value assigned for at-least-720p geometry at the same
tier. -/
theorem c3_amended_quarter (ctx : EncCtx) (sf : SPEED_FEATURES) (rd : List Int)
    (k w h W H : Nat) (hm : ctx.mode = ENC_MODE.GOOD) (hk1 : 1 ≤ k)
    (hk4 : k ≤ 4) (hsub : min w h < 720) (hge : 720 ≤ min W H) :
    4 * (av1_set_speed_features_framesize_dependent
          (withGeom (withSpeed ctx k) w h)
          sf rd).sf.partition_search_breakout_dist_thr
      = (av1_set_speed_features_framesize_dependent
          (withGeom (withSpeed ctx k) W H)
          sf rd).sf.partition_search_breakout_dist_thr := by
  have hsub' : ¬ (720 ≤ min w h) := not_le.mpr hsub
  have hmG1 : (withGeom (withSpeed ctx k) w h).mode = ENC_MODE.GOOD := hm
  have hmG2 : (withGeom (withSpeed ctx k) W H).mode = ENC_MODE.GOOD := hm
  rw [dep_dist_good _ _ _ hmG1, dep_dist_good _ _ _ hmG2]
  have hk : k = 1 ∨ k = 2 ∨ k = 3 ∨ k = 4 := by omega
  rcases hk with rfl | rfl | rfl | rfl
  · rw [show (withGeom (withSpeed ctx 1) w h).speed = 1 from rfl,
      show (withGeom (withSpeed ctx 1) W H).speed = 1 from rfl,
      good_fd_dist_tier1, good_fd_dist_tier1]
    simp only [withGeom, withSpeed]
    simp [hsub', hge]
  · rw [show (withGeom (withSpeed ctx 2) w h).speed = 2 from rfl,
      show (withGeom (withSpeed ctx 2) W H).speed = 2 from rfl,
      good_fd_dist_tier2, good_fd_dist_tier2]
    simp only [withGeom, withSpeed]
    simp [hsub', hge]
  · rw [show (withGeom (withSpeed ctx 3) w h).speed = 3 from rfl,
      show (withGeom (withSpeed ctx 3) W H).speed = 3 from rfl,
      good_fd_dist_tier3, good_fd_dist_tier3]
    simp only [withGeom, withSpeed]
    simp [hsub', hge]
  · rw [show (withGeom (withSpeed ctx 4) w h).speed = 4 from rfl,
      show (withGeom (withSpeed ctx 4) W H).speed = 4 from rfl,
      good_fd_dist_tier4, good_fd_dist_tier4]
    simp only [withGeom, withSpeed]
    simp [hsub', hge]

/-- C3 witness: the amended theorem applied at tier 2 with concrete
sub-720p (640x480) and at-least-720p (1280x720) geometries. -/
theorem c3_witness :
    4 * (av1_set_speed_features_framesize_dependent
          (withGeom (withSpeed ctx0 2) 640 480)
          sf_init rd0).sf.partition_search_breakout_dist_thr
      = (av1_set_speed_features_framesize_dependent
          (withGeom (withSpeed ctx0 2) 1280 720)
          sf_init rd0).sf.partition_search_breakout_dist_thr :=
  c3_amended_quarter ctx0 sf_init rd0 2 640 480 1280 720 rfl (by decide)
    (by decide) (by decide) (by decide)

/-- For every non-BEST mode, the resolved mesh maximum-search-percentage
cap is the good-quality table entry at the clamped speed. -/
theorem c8_pct_eval (ctx : EncCtx) (sf0 : SPEED_FEATURES)
    (hm : ctx.mode ≠ ENC_MODE.BEST) :
    (av1_set_speed_features_framesize_independent ctx sf0).sf.max_exaustive_pct
      = good_quality_max_mesh_pct.getD
          (if MAX_MESH_SPEED < ctx.speed then MAX_MESH_SPEED else ctx.speed) 0 := by
  simp only [av1_set_speed_features_framesize_independent, select_mesh_features,
    pass_and_mode_finalize, MAX_SB_SIZE_LOG2]
  simp [hm, apply_ite SPEED_FEATURES.max_exaustive_pct]

/-- The good-quality mesh-percentage table composed with the speed clamp is
non-increasing. -/
theorem mesh_pct_monotone (a b : Nat) (hab : a ≤ b) :
    good_quality_max_mesh_pct.getD
        (if MAX_MESH_SPEED < b then MAX_MESH_SPEED else b) 0
      ≤ good_quality_max_mesh_pct.getD
          (if MAX_MESH_SPEED < a then MAX_MESH_SPEED else a) 0 := by
  simp only [MAX_MESH_SPEED]
  by_cases hb : 5 < b
  · by_cases ha : 5 < a
    · simp [ha, hb]
    · have ha5 : a ≤ 5 := by omega
      simp only [if_pos hb, if_neg ha]
      interval_cases a <;> decide
  · have ha : ¬ 5 < a := by omega
    have hb5 : b ≤ 5 := by omega
    simp only [if_neg ha, if_neg hb]
    interval_cases b <;> interval_cases a <;> decide

/-- C8: for every non-BEST (good-quality-table) resolution with fixed mode,
geometry and content, the resolved max_exaustive_pct is non-increasing as
the speed level increases, including speeds above the mesh table maximum,
which clamp to table index 5. -/
theorem c8_pct_non_increasing (ctx : EncCtx) (sf0 : SPEED_FEATURES)
    (s1 s2 : Nat) (hm : ctx.mode ≠ ENC_MODE.BEST) (h : s1 ≤ s2) :
    (av1_set_speed_features_framesize_independent (withSpeed ctx s2)
        sf0).sf.max_exaustive_pct
      ≤ (av1_set_speed_features_framesize_independent (withSpeed ctx s1)
          sf0).sf.max_exaustive_pct := by
  have hm2 : (withSpeed ctx s2).mode ≠ ENC_MODE.BEST := hm
  have hm1 : (withSpeed ctx s1).mode ≠ ENC_MODE.BEST := hm
  rw [c8_pct_eval _ _ hm2, c8_pct_eval _ _ hm1]
  rw [show (withSpeed ctx s2).speed = s2 from rfl,
    show (withSpeed ctx s1).speed = s1 from rfl]
  exact mesh_pct_monotone s1 s2 h

/-- C8 witness: the theorem applied in a concrete good-quality context with
speeds 2 and 7 (the latter clamping to table index 5). -/
theorem c8_witness :
    (av1_set_speed_features_framesize_independent (withSpeed ctx0 7)
        sf_init).sf.max_exaustive_pct
      ≤ (av1_set_speed_features_framesize_independent (withSpeed ctx0 2)
          sf_init).sf.max_exaustive_pct :=
  c8_pct_non_increasing ctx0 sf_init 2 7 (by decide) (by decide)

/-- C9: the pervasive at-least-720p geometry test of both
geometry-dependent resolvers is min(width, height) >= 720, independent of
the other dimension and not a pixel-area test: at speed 1 (and outside the
two-pass content override) the resolved disable-mask follows the
min-dimension branch for every geometry, so a 1280x600 frame (area below
1280*720) takes the sub-720p branch while a 720x720 frame (area also below
1280*720) takes the at-least-720p branch, in both GOOD and REALTIME
modes. -/
theorem c9_min_dimension_test (ctx : EncCtx) (sf : SPEED_FEATURES)
    (rd : List Int) (w h : Nat) (hs : ctx.speed = 1)
    (hp : ¬ (ctx.pass = 2 ∧
            (ctx.fr_content_type = FC_CONTENT_TYPE.FC_GRAPHICS_ANIMATION ∨
              ctx.internal_image_edge = true))) :
    (av1_set_speed_features_framesize_dependent
        (withGeom (withMode ctx ENC_MODE.GOOD) w h) sf rd).sf.disable_split_mask
      = (if 720 ≤ min w h then
          (if ctx.show_frame then DISABLE_ALL_SPLIT else DISABLE_ALL_INTER_SPLIT)
        else DISABLE_COMPOUND_SPLIT) ∧
    (av1_set_speed_features_framesize_dependent
        (withGeom (withMode ctx ENC_MODE.REALTIME) w h) sf rd).sf.disable_split_mask
      = (if 720 ≤ min w h then
          (if ctx.show_frame then DISABLE_ALL_SPLIT else DISABLE_ALL_INTER_SPLIT)
        else DISABLE_COMPOUND_SPLIT) := by
  constructor
  · simp only [av1_set_speed_features_framesize_dependent,
      set_good_speed_feature_framesize_dependent, withGeom, withMode]
    simp [hs, hp, apply_ite SPEED_FEATURES.disable_split_mask]
  · simp only [av1_set_speed_features_framesize_dependent,
      set_rt_speed_feature_framesize_dependent, withGeom, withMode]
    simp [hs, apply_ite SPEED_FEATURES.disable_split_mask]

/-- Concrete speed-1 single-pass context for the C9 witness. -/
def ctx_c9 : EncCtx := { ctx0 with speed := 1, pass := 0 }

/-- C9 witness: the theorem applied at the 1280x600 geometry, whose area is
below 1280*720 yet which resolves through the sub-720p branch because
min(1280, 600) < 720. -/
theorem c9_witness :
    (av1_set_speed_features_framesize_dependent
        (withGeom (withMode ctx_c9 ENC_MODE.GOOD) 1280 600)
        sf_init rd0).sf.disable_split_mask
      = (if 720 ≤ min 1280 600 then
          (if ctx_c9.show_frame then DISABLE_ALL_SPLIT else DISABLE_ALL_INTER_SPLIT)
        else DISABLE_COMPOUND_SPLIT) ∧
    (av1_set_speed_features_framesize_dependent
        (withGeom (withMode ctx_c9 ENC_MODE.REALTIME) 1280 600)
        sf_init rd0).sf.disable_split_mask
      = (if 720 ≤ min 1280 600 then
          (if ctx_c9.show_frame then DISABLE_ALL_SPLIT else DISABLE_ALL_INTER_SPLIT)
        else DISABLE_COMPOUND_SPLIT) :=
  c9_min_dimension_test ctx_c9 sf_init rd0 1280 600 rfl (by decide)

/-- C10: in REALTIME mode, for every speed level and content,
geometry-independent resolution finishes with allow_exhaustive_searches = 1
and with the exhaustive-search threshold, percentage cap and mesh pattern
taken from the good-quality tables at the speed clamped to MAX_MESH_SPEED:
the realtime resolver's own assignments allow_exhaustive_searches = 0 and
exhaustive_searches_thresh = INT_MAX are always overwritten by the mesh
selector that runs after it. -/
theorem c10_rt_mesh_overwrite (ctx : EncCtx) (sf0 : SPEED_FEATURES)
    (hm : ctx.mode = ENC_MODE.REALTIME) :
    (av1_set_speed_features_framesize_independent ctx sf0).sf.allow_exhaustive_searches
        = 1 ∧
    (av1_set_speed_features_framesize_independent ctx sf0).sf.exhaustive_searches_thresh
        = (if 0 < (if MAX_MESH_SPEED < ctx.speed then MAX_MESH_SPEED else ctx.speed)
          then
            (if ctx.fr_content_type = FC_CONTENT_TYPE.FC_GRAPHICS_ANIMATION then
              (1 <<< 22) <<< 1
            else (1 <<< 23) <<< 1)
          else
            (if ctx.fr_content_type = FC_CONTENT_TYPE.FC_GRAPHICS_ANIMATION then
              1 <<< 22
            else 1 <<< 23)) ∧
    (av1_set_speed_features_framesize_independent ctx sf0).sf.exhaustive_searches_thresh
        ≠ INT_MAX ∧
    (av1_set_speed_features_framesize_independent ctx sf0).sf.max_exaustive_pct
        = good_quality_max_mesh_pct.getD
            (if MAX_MESH_SPEED < ctx.speed then MAX_MESH_SPEED else ctx.speed) 0 ∧
    (av1_set_speed_features_framesize_independent ctx sf0).sf.mesh_patterns
        = good_quality_mesh_patterns.getD
            (if MAX_MESH_SPEED < ctx.speed then MAX_MESH_SPEED else ctx.speed) [] := by
  have hb : ctx.mode ≠ ENC_MODE.BEST := by simp [hm]
  refine ⟨?_, ?_, ?_, ?_, ?_⟩
  · simp only [av1_set_speed_features_framesize_independent, select_mesh_features,
      pass_and_mode_finalize, MAX_SB_SIZE_LOG2]
    simp [hb, apply_ite SPEED_FEATURES.allow_exhaustive_searches]
  · simp only [av1_set_speed_features_framesize_independent, select_mesh_features,
      pass_and_mode_finalize, MAX_SB_SIZE_LOG2]
    simp [hb, apply_ite SPEED_FEATURES.exhaustive_searches_thresh]
    split_ifs <;> simp
  · simp only [av1_set_speed_features_framesize_independent, select_mesh_features,
      pass_and_mode_finalize, MAX_SB_SIZE_LOG2, INT_MAX]
    simp [hb, apply_ite SPEED_FEATURES.exhaustive_searches_thresh]
    split_ifs <;> decide
  · simp only [av1_set_speed_features_framesize_independent, select_mesh_features,
      pass_and_mode_finalize, MAX_SB_SIZE_LOG2]
    simp [hb, apply_ite SPEED_FEATURES.max_exaustive_pct]
  · simp only [av1_set_speed_features_framesize_independent, select_mesh_features,
      pass_and_mode_finalize, MAX_SB_SIZE_LOG2]
    simp [hb, apply_ite SPEED_FEATURES.mesh_patterns]

/-- Concrete realtime context for the C10 witness. -/
def ctx_rt : EncCtx := { ctx0 with mode := ENC_MODE.REALTIME, speed := 7 }

/-- C10 witness: the theorem applied at a concrete realtime context with
speed 7 (clamping to mesh table index 5). -/
theorem c10_witness :
    (av1_set_speed_features_framesize_independent ctx_rt sf_init).sf.allow_exhaustive_searches
        = 1 ∧
    (av1_set_speed_features_framesize_independent ctx_rt sf_init).sf.exhaustive_searches_thresh
        = (if 0 < (if MAX_MESH_SPEED < ctx_rt.speed then MAX_MESH_SPEED else ctx_rt.speed)
          then
            (if ctx_rt.fr_content_type = FC_CONTENT_TYPE.FC_GRAPHICS_ANIMATION then
              (1 <<< 22) <<< 1
            else (1 <<< 23) <<< 1)
          else
            (if ctx_rt.fr_content_type = FC_CONTENT_TYPE.FC_GRAPHICS_ANIMATION then
              1 <<< 22
            else 1 <<< 23)) ∧
    (av1_set_speed_features_framesize_independent ctx_rt sf_init).sf.exhaustive_searches_thresh
        ≠ INT_MAX ∧
    (av1_set_speed_features_framesize_independent ctx_rt sf_init).sf.max_exaustive_pct
        = good_quality_max_mesh_pct.getD
            (if MAX_MESH_SPEED < ctx_rt.speed then MAX_MESH_SPEED else ctx_rt.speed) 0 ∧
    (av1_set_speed_features_framesize_independent ctx_rt sf_init).sf.mesh_patterns
        = good_quality_mesh_patterns.getD
            (if MAX_MESH_SPEED < ctx_rt.speed then MAX_MESH_SPEED else ctx_rt.speed) [] :=
  c10_rt_mesh_overwrite ctx_rt sf_init rfl

/-- Saturation of the good-quality geometry-independent resolver: every
guard is speed >= k with k <= 6, so speeds above 6 trigger no new tier. -/
theorem good_sat (ctx : EncCtx) (sf : SPEED_FEATURES) (s : Nat) (h : 6 ≤ s) :
    set_good_speed_feature ctx sf s = set_good_speed_feature ctx sf 6 := by
  have h1 : 1 ≤ s := by omega
  have h2 : 2 ≤ s := by omega
  have h3 : 3 ≤ s := by omega
  have h4 : 4 ≤ s := by omega
  have h5 : 5 ≤ s := by omega
  simp only [set_good_speed_feature]
  simp [h1, h2, h3, h4, h5, h]

/-- Saturation of the realtime geometry-independent resolver at speed 8. -/
theorem rt_sat (ctx : EncCtx) (sf : SPEED_FEATURES) (c : aom_tune_content)
    (s : Nat) (h : 8 ≤ s) :
    set_rt_speed_feature ctx sf s c = set_rt_speed_feature ctx sf 8 c := by
  have h1 : 1 ≤ s := by omega
  have h2 : 2 ≤ s := by omega
  have h3 : 3 ≤ s := by omega
  have h4 : 4 ≤ s := by omega
  have h5 : 5 ≤ s := by omega
  have h6 : 6 ≤ s := by omega
  have h7 : 7 ≤ s := by omega
  simp only [set_rt_speed_feature]
  simp [h1, h2, h3, h4, h5, h6, h7, h]

/-- Saturation of the good-quality geometry-dependent resolver (its guards
stop at speed >= 4). -/
theorem good_fd_sat (ctx : EncCtx) (sf : SPEED_FEATURES) (s : Nat) (h : 6 ≤ s) :
    set_good_speed_feature_framesize_dependent ctx sf s
      = set_good_speed_feature_framesize_dependent ctx sf 6 := by
  have h1 : 1 ≤ s := by omega
  have h2 : 2 ≤ s := by omega
  have h3 : 3 ≤ s := by omega
  have h4 : 4 ≤ s := by omega
  simp only [set_good_speed_feature_framesize_dependent]
  simp [h1, h2, h3, h4]

/-- Saturation of the realtime geometry-dependent resolver (its guards stop
at speed >= 5). -/
theorem rt_fd_sat (ctx : EncCtx) (sf : SPEED_FEATURES) (s : Nat) (h : 8 ≤ s) :
    set_rt_speed_feature_framesize_dependent ctx sf s
      = set_rt_speed_feature_framesize_dependent ctx sf 8 := by
  have h1 : 1 ≤ s := by omega
  have h2 : 2 ≤ s := by omega
  have h5 : 5 ≤ s := by omega
  simp only [set_rt_speed_feature_framesize_dependent]
  simp [h1, h2, h5]

/-- The mesh selector clamps the speed to MAX_MESH_SPEED, so any two speeds
at least 6 select the same mesh configuration. -/
theorem mesh_sat (ctx : EncCtx) (sf : SPEED_FEATURES) (s t : Nat)
    (hs : 6 ≤ s) (ht : 6 ≤ t) :
    select_mesh_features (withSpeed ctx s) sf
      = select_mesh_features (withSpeed ctx t) sf := by
  have hs5 : MAX_MESH_SPEED < s := by simp only [MAX_MESH_SPEED]; omega
  have ht5 : MAX_MESH_SPEED < t := by simp only [MAX_MESH_SPEED]; omega
  simp only [select_mesh_features, withSpeed]
  simp [hs5, ht5]

/-- withSpeed only changes the speed field. -/
theorem withSpeed_mode (ctx : EncCtx) (s : Nat) :
    (withSpeed ctx s).mode = ctx.mode := rfl

/-- withSpeed sets the speed field. -/
theorem withSpeed_speed (ctx : EncCtx) (s : Nat) :
    (withSpeed ctx s).speed = s := rfl

/-- withSpeed preserves the content hint. -/
theorem withSpeed_content (ctx : EncCtx) (s : Nat) :
    (withSpeed ctx s).content = ctx.content := rfl

/-- withSpeed preserves the pass count. -/
theorem withSpeed_pass (ctx : EncCtx) (s : Nat) :
    (withSpeed ctx s).pass = ctx.pass := rfl

/-- withSpeed preserves the frame width. -/
theorem withSpeed_width (ctx : EncCtx) (s : Nat) :
    (withSpeed ctx s).width = ctx.width := rfl

/-- withSpeed preserves the frame height. -/
theorem withSpeed_height (ctx : EncCtx) (s : Nat) :
    (withSpeed ctx s).height = ctx.height := rfl

/-- The defaults seeding does not read the speed field. -/
theorem defaults_withSpeed (ctx : EncCtx) (s : Nat) (sf : SPEED_FEATURES) :
    best_quality_defaults (withSpeed ctx s) sf = best_quality_defaults ctx sf := rfl

/-- The good-quality resolver takes its speed as an argument and does not
read the context speed field. -/
theorem good_withSpeed (ctx : EncCtx) (s sp : Nat) (sf : SPEED_FEATURES) :
    set_good_speed_feature (withSpeed ctx s) sf sp
      = set_good_speed_feature ctx sf sp := rfl

/-- The realtime resolver takes its speed as an argument and does not read
the context speed field. -/
theorem rt_withSpeed (ctx : EncCtx) (s sp : Nat) (sf : SPEED_FEATURES)
    (c : aom_tune_content) :
    set_rt_speed_feature (withSpeed ctx s) sf sp c
      = set_rt_speed_feature ctx sf sp c := rfl

/-- The good-quality geometry-dependent resolver takes its speed as an
argument and does not read the context speed field. -/
theorem good_fd_withSpeed (ctx : EncCtx) (s sp : Nat) (sf : SPEED_FEATURES) :
    set_good_speed_feature_framesize_dependent (withSpeed ctx s) sf sp
      = set_good_speed_feature_framesize_dependent ctx sf sp := rfl

/-- The realtime geometry-dependent resolver takes its speed as an argument
and does not read the context speed field. -/
theorem rt_fd_withSpeed (ctx : EncCtx) (s sp : Nat) (sf : SPEED_FEATURES) :
    set_rt_speed_feature_framesize_dependent (withSpeed ctx s) sf sp
      = set_rt_speed_feature_framesize_dependent ctx sf sp := rfl

/-- The pass/mode finalizer does not read the speed field. -/
theorem finalize_withSpeed (ctx : EncCtx) (s : Nat) (sf : SPEED_FEATURES) :
    pass_and_mode_finalize (withSpeed ctx s) sf
      = pass_and_mode_finalize ctx sf := rfl

/-- Saturation of the full geometry-independent entry point in GOOD mode. -/
theorem ind_sat_good (ctx : EncCtx) (sf0 : SPEED_FEATURES) (s : Nat)
    (hm : ctx.mode = ENC_MODE.GOOD) (h : 6 ≤ s) :
    av1_set_speed_features_framesize_independent (withSpeed ctx s) sf0
      = av1_set_speed_features_framesize_independent (withSpeed ctx 6) sf0 := by
  simp only [av1_set_speed_features_framesize_independent, withSpeed_mode,
    withSpeed_speed, withSpeed_content, withSpeed_pass, hm]
  simp only [show (ENC_MODE.GOOD = ENC_MODE.REALTIME) = False by simp,
    show (ENC_MODE.GOOD = ENC_MODE.GOOD) = True by simp, if_false, if_true,
    ite_false, ite_true]
  rw [defaults_withSpeed, defaults_withSpeed, good_withSpeed, good_withSpeed,
    good_sat ctx _ s h,
    mesh_sat ctx _ s 6 h (by omega),
    finalize_withSpeed, finalize_withSpeed]

/-- Saturation of the full geometry-independent entry point in REALTIME
mode. -/
theorem ind_sat_rt (ctx : EncCtx) (sf0 : SPEED_FEATURES) (s : Nat)
    (hm : ctx.mode = ENC_MODE.REALTIME) (h : 8 ≤ s) :
    av1_set_speed_features_framesize_independent (withSpeed ctx s) sf0
      = av1_set_speed_features_framesize_independent (withSpeed ctx 8) sf0 := by
  simp only [av1_set_speed_features_framesize_independent, withSpeed_mode,
    withSpeed_speed, withSpeed_content, withSpeed_pass, hm]
  simp only [show (ENC_MODE.REALTIME = ENC_MODE.REALTIME) = True by simp,
    if_true, ite_true]
  rw [defaults_withSpeed, defaults_withSpeed, rt_withSpeed, rt_withSpeed,
    rt_sat ctx _ ctx.content s h,
    mesh_sat ctx _ s 8 (by omega) (by omega),
    finalize_withSpeed, finalize_withSpeed]

/-- Saturation of the full geometry-dependent entry point in GOOD mode. -/
theorem dep_sat_good (ctx : EncCtx) (sf : SPEED_FEATURES) (rd : List Int)
    (s : Nat) (hm : ctx.mode = ENC_MODE.GOOD) (h : 6 ≤ s) :
    av1_set_speed_features_framesize_dependent (withSpeed ctx s) sf rd
      = av1_set_speed_features_framesize_dependent (withSpeed ctx 6) sf rd := by
  simp only [av1_set_speed_features_framesize_dependent, withSpeed_mode,
    withSpeed_speed, withSpeed_width, withSpeed_height, hm]
  simp only [show (ENC_MODE.GOOD = ENC_MODE.REALTIME) = False by simp,
    show (ENC_MODE.GOOD = ENC_MODE.GOOD) = True by simp, if_false, if_true,
    ite_false, ite_true]
  rw [good_fd_withSpeed, good_fd_withSpeed, good_fd_sat ctx _ s h]

/-- Saturation of the full geometry-dependent entry point in REALTIME
mode. -/
theorem dep_sat_rt (ctx : EncCtx) (sf : SPEED_FEATURES) (rd : List Int)
    (s : Nat) (hm : ctx.mode = ENC_MODE.REALTIME) (h : 8 ≤ s) :
    av1_set_speed_features_framesize_dependent (withSpeed ctx s) sf rd
      = av1_set_speed_features_framesize_dependent (withSpeed ctx 8) sf rd := by
  simp only [av1_set_speed_features_framesize_dependent, withSpeed_mode,
    withSpeed_speed, withSpeed_width, withSpeed_height, hm]
  simp only [show (ENC_MODE.REALTIME = ENC_MODE.REALTIME) = True by simp,
    if_true, ite_true]
  rw [rt_fd_withSpeed, rt_fd_withSpeed, rt_fd_sat ctx _ s h]

/-- C6: for every context, full resolution in GOOD mode at any speed >= 6
produces a result identical to resolution at speed exactly 6, and
resolution in REALTIME mode at any speed >= 8 produces a result identical
to speed exactly 8: out-of-range speed saturates at the highest tier's
settings and raises no error. -/
theorem c6_saturation (ctx : EncCtx) (sf0 : SPEED_FEATURES) (rd : List Int)
    (s : Nat) :
    (ctx.mode = ENC_MODE.GOOD → 6 ≤ s →
      resolve_full (withSpeed ctx s) sf0 rd
        = resolve_full (withSpeed ctx 6) sf0 rd) ∧
    (ctx.mode = ENC_MODE.REALTIME → 8 ≤ s →
      resolve_full (withSpeed ctx s) sf0 rd
        = resolve_full (withSpeed ctx 8) sf0 rd) := by
  constructor
  · intro hm h
    simp only [resolve_full]
    rw [ind_sat_good ctx sf0 s hm h, dep_sat_good ctx _ rd s hm h]
  · intro hm h
    simp only [resolve_full]
    rw [ind_sat_rt ctx sf0 s hm h, dep_sat_rt ctx _ rd s hm h]

/-- Concrete realtime context at default speed for the C6 witness. -/
def ctx_rt0 : EncCtx := { ctx0 with mode := ENC_MODE.REALTIME }

/-- C6 witness: the theorem applied at speed 9 in a concrete GOOD context
(equal to speed 6) and in a concrete REALTIME context (equal to speed
8). -/
theorem c6_witness :
    resolve_full (withSpeed ctx0 9) sf_init rd0
        = resolve_full (withSpeed ctx0 6) sf_init rd0 ∧
      resolve_full (withSpeed ctx_rt0 9) sf_init rd0
        = resolve_full (withSpeed ctx_rt0 8) sf_init rd0 :=
  ⟨(c6_saturation ctx0 sf_init rd0 9).1 rfl (by decide),
    (c6_saturation ctx_rt0 sf_init rd0 9).2 rfl (by decide)⟩
